import Mathlib

/-!
Shallow embedding of the WanderLust trip-planner service
(src/services/tripPlannerService.js).

Randomness: every call to Math.random() is modelled by an explicit
rational parameter r with 0 <= r < 1.  JS Math.round is modelled as
floor (x + 1/2).  Object-literal lookups are modelled as association
lists with List.lookup; the JS fallback `|| x` becomes Option.getD,
which coincides with it because no table value is falsy.
-/

namespace TripPlanner

/-- JS Math.round: round half toward positive infinity. -/
def jsRound (x : ℚ) : ℤ := ⌊x + 1/2⌋

/-- JS Math.floor of a nonnegative draw scaled by a list length:
Math.floor(r * n), as a natural number index. -/
def pickIndex (r : ℚ) (n : ℕ) : ℕ := (⌊r * n⌋).toNat

/-- JS String.prototype.toLowerCase (over the character list, so that the
kernel can evaluate it on literals). -/
def jsToLower (s : String) : String := String.mk (s.data.map Char.toLower)

/-- JS String.prototype.trim: strip whitespace from both ends. -/
def jsTrim (s : String) : String :=
  String.mk (((s.data.dropWhile Char.isWhitespace).reverse.dropWhile
    Char.isWhitespace).reverse)

/-! ## Static tables (mockFlightAPI) -/

/-- The `routes` object literal of mockFlightAPI: route base prices. -/
def routes : List (String × List (String × ℕ)) :=
  [ ("new york", [("paris", 450), ("tokyo", 800), ("london", 400), ("dubai", 600),
      ("mumbai", 900), ("delhi", 850)]),
    ("london", [("paris", 150), ("tokyo", 700), ("new york", 400), ("dubai", 350),
      ("mumbai", 500), ("delhi", 480)]),
    ("mumbai", [("dubai", 200), ("london", 500), ("paris", 550), ("tokyo", 400),
      ("new york", 900), ("delhi", 80), ("kolkata", 120), ("goa", 150),
      ("bangalore", 100), ("chennai", 110), ("hyderabad", 90)]),
    ("delhi", [("dubai", 180), ("london", 480), ("paris", 520), ("tokyo", 380),
      ("new york", 850), ("mumbai", 80), ("kolkata", 100), ("goa", 130),
      ("bangalore", 120), ("chennai", 130), ("hyderabad", 70)]),
    ("kolkata", [("mumbai", 120), ("delhi", 100), ("goa", 180), ("bangalore", 140),
      ("chennai", 150), ("hyderabad", 120), ("dubai", 250), ("singapore", 300),
      ("imphal", 100)]),
    ("goa", [("mumbai", 150), ("delhi", 130), ("kolkata", 180), ("bangalore", 160),
      ("chennai", 170), ("hyderabad", 140)]),
    ("bangalore", [("mumbai", 100), ("delhi", 120), ("kolkata", 140), ("goa", 160),
      ("chennai", 50), ("hyderabad", 60), ("dubai", 220)]),
    ("chennai", [("mumbai", 110), ("delhi", 130), ("kolkata", 150), ("goa", 170),
      ("bangalore", 50), ("hyderabad", 80)]),
    ("hyderabad", [("mumbai", 90), ("delhi", 70), ("kolkata", 120), ("goa", 140),
      ("bangalore", 60), ("chennai", 80)]),
    ("paris", [("london", 150), ("new york", 450), ("tokyo", 650), ("dubai", 400)]),
    ("tokyo", [("new york", 800), ("london", 700), ("paris", 650), ("dubai", 550)]),
    ("dubai", [("london", 350), ("paris", 400), ("new york", 600), ("tokyo", 550),
      ("mumbai", 200), ("delhi", 180)]) ]

/-- routes[origin]?.[destination] : the two-level optional lookup. -/
def lookupRoute (o d : String) : Option ℕ :=
  (routes.lookup o).bind (fun row => row.lookup d)

/-- The expression routes[lowerOrigin]?.[lowerDestination] with fallback 500
(every table price is at least 50, so the JS falsy fallback coincides with
getD). -/
def flightBasePrice (o d : String) : ℕ := (lookupRoute o d).getD 500

/-- Peak season months of getSeasonalMultiplier (JS Date months, 0-based). -/
def peakMonths : List ℤ := [5, 6, 7, 8, 11]

/-- getSeasonalMultiplier: 1.3 on a peak month, 0.9 otherwise. -/
def getSeasonalMultiplier (month : ℤ) : ℚ :=
  if month ∈ peakMonths then 13/10 else 9/10

/-- The indianCities array of mockFlightAPI. -/
def indianCities : List String :=
  ["Mumbai", "Delhi", "Kolkata", "Goa", "Bangalore", "Chennai", "Hyderabad",
   "Ahmedabad", "Jaipur", "Pune", "Imphal", "Guwahati", "Shillong", "Agartala",
   "Aizawl", "Dibrugarh", "Silchar"]

/-- isDomestic: both (already lowercased) endpoints match an Indian city. -/
def isDomesticRoute (o d : String) : Bool :=
  (indianCities.any (fun c => jsToLower c == o)) &&
  (indianCities.any (fun c => jsToLower c == d))

def domesticAirlines : List String :=
  ["Indigo", "Air India", "SpiceJet", "Vistara", "GoAir"]

def internationalAirlines : List String :=
  ["Emirates", "British Airways", "Lufthansa", "Air India", "Qatar Airways",
   "Singapore Airlines", "Thai Airways"]

/-! ## getFlightDetails -/

/-- Domestic flight duration table (hours). -/
def domesticDurations : List (String × ℚ) :=
  [ ("mumbai-delhi", 5/2), ("delhi-mumbai", 5/2),
    ("mumbai-kolkata", 3), ("kolkata-mumbai", 3),
    ("delhi-kolkata", 2), ("kolkata-delhi", 2),
    ("mumbai-goa", 3/2), ("goa-mumbai", 3/2),
    ("delhi-goa", 5/2), ("goa-delhi", 5/2),
    ("kolkata-goa", 5/2), ("goa-kolkata", 5/2),
    ("kolkata-imphal", 3/2), ("imphal-kolkata", 3/2),
    ("mumbai-bangalore", 2), ("bangalore-mumbai", 2),
    ("delhi-bangalore", 5/2), ("bangalore-delhi", 5/2),
    ("mumbai-chennai", 5/2), ("chennai-mumbai", 5/2),
    ("delhi-chennai", 5/2), ("chennai-delhi", 5/2),
    ("bangalore-chennai", 1), ("chennai-bangalore", 1),
    ("mumbai-hyderabad", 3/2), ("hyderabad-mumbai", 3/2),
    ("delhi-hyderabad", 2), ("hyderabad-delhi", 2),
    ("bangalore-hyderabad", 1), ("hyderabad-bangalore", 1),
    ("chennai-hyderabad", 3/2), ("hyderabad-chennai", 3/2) ]

/-- International flight duration table (hours). -/
def internationalDurations : List (String × ℚ) :=
  [ ("mumbai-dubai", 7/2), ("dubai-mumbai", 7/2),
    ("delhi-dubai", 7/2), ("dubai-delhi", 7/2),
    ("mumbai-london", 9), ("london-mumbai", 9),
    ("delhi-london", 17/2), ("london-delhi", 17/2),
    ("mumbai-paris", 19/2), ("paris-mumbai", 19/2),
    ("delhi-paris", 9), ("paris-delhi", 9),
    ("mumbai-new york", 15), ("new york-mumbai", 15),
    ("delhi-new york", 29/2), ("new york-delhi", 29/2),
    ("london-new york", 8), ("new york-london", 8),
    ("paris-new york", 17/2), ("new york-paris", 17/2),
    ("london-paris", 3/2), ("paris-london", 3/2),
    ("dubai-london", 7), ("london-dubai", 7),
    ("dubai-paris", 15/2), ("paris-dubai", 15/2) ]

/-- The route key: lowercased origin, a dash, lowercased destination. -/
def routeKey (o d : String) : String := jsToLower o ++ "-" ++ jsToLower d

/-- Base duration: forward key, then reverse key, then the per-category
default (2h domestic, 8h international). -/
def baseDuration (o d : String) (isDom : Bool) : ℚ :=
  if isDom then
    ((domesticDurations.lookup (routeKey o d)).or
      (domesticDurations.lookup (routeKey d o))).getD 2
  else
    ((internationalDurations.lookup (routeKey o d)).or
      (internationalDurations.lookup (routeKey d o))).getD 8

/-- Duration after the uniform jitter (Math.random() - 0.5) * 0.5. -/
def resolvedDuration (o d : String) (isDom : Bool) (rj : ℚ) : ℚ :=
  baseDuration o d isDom + (rj - 1/2) * (1/2)

/-- The stop-count policy of getFlightDetails, keyed on the flight category
and the resolved duration; rs is the Math.random() draw.  Stated over any
linear ordered field so that both the rational embedding and real-valued
probability statements can use it. -/
def flightStops {α : Type} [LinearOrderedField α] (isDom : Bool) (dur : α) (rs : α) : ℕ :=
  if isDom then
    (if rs > 4/5 then 1 else 0)
  else if dur < 5 then
    (if rs > 7/10 then 0 else 1)
  else if dur < 10 then
    (if rs > 1/2 then 1 else 0)
  else
    (if rs > 3/10 then 1 else 2)

/-- The formatted duration string: hours, the letter h, minutes, m. -/
def formatDuration (dur : ℚ) : String :=
  toString ⌊dur⌋ ++ "h " ++ toString (jsRound ((dur - ⌊dur⌋) * 60)) ++ "m"

/-- getFlightDetails: formatted duration string and stop count.
rj is the jitter draw, rs the stop draw. -/
def getFlightDetails (o d : String) (isDom : Bool) (rj rs : ℚ) : String × ℕ :=
  let dur := resolvedDuration o d isDom rj
  (formatDuration dur, flightStops isDom dur rs)

/-! ## mockFlightAPI -/

structure FlightQuote where
  price : ℤ
  airline : String
  duration : String
  stops : ℕ
  availability : Bool
  bookingClass : String
  baggage : String
  refundable : Bool
  deriving Repr, DecidableEq

/-- mockFlightAPI.  month is the (0-based) month extracted from departDate;
rv, ra, rav, rbc, rr, rj, rs are the successive Math.random() draws
(price variation, airline pick, availability, booking class, refundable,
duration jitter, stop draw). -/
def mockFlightAPI (origin destination : String) (month : ℤ)
    (rv ra rav rbc rr rj rs : ℚ) : FlightQuote :=
  let lowerOrigin := jsToLower (jsTrim origin)
  let lowerDestination := jsToLower (jsTrim destination)
  let basePrice := flightBasePrice lowerOrigin lowerDestination
  let v := rv * (1/2) - 1/4
  let seasonalMultiplier := getSeasonalMultiplier month
  let isDomestic := isDomesticRoute lowerOrigin lowerDestination
  let airlines := if isDomestic then domesticAirlines else internationalAirlines
  let flightDetails := getFlightDetails lowerOrigin lowerDestination isDomestic rj rs
  { price := jsRound ((basePrice : ℚ) * (1 + v) * seasonalMultiplier)
    airline := airlines.getD (pickIndex ra airlines.length) ""
    duration := flightDetails.1
    stops := flightDetails.2
    availability := rav > 1/5
    bookingClass := ["Economy", "Premium Economy", "Business"].getD (pickIndex rbc 3) ""
    baggage := "20kg included"
    refundable := rr > 1/2 }

/-! ## mockHotelAPI -/

structure HotelTier where
  name : String
  rating : ℚ
  amenities : List String
  basePrice : ℕ
  deriving Repr, DecidableEq

def standardHotel : HotelTier :=
  { name := "Comfort Hotel", rating := 4,
    amenities := ["WiFi", "Pool", "Gym", "Restaurant"], basePrice := 120 }

def budgetHotel : HotelTier :=
  { name := "Budget Inn", rating := 5/2,
    amenities := ["WiFi", "Breakfast"], basePrice := 60 }

def luxuryHotel : HotelTier :=
  { name := "Grand Resort", rating := 24/5,
    amenities := ["WiFi", "Spa", "Pool", "Concierge", "Fine Dining"],
    basePrice := 280 }

/-- The hotelTypes object literal. -/
def hotelTypes : List (String × HotelTier) :=
  [("budget", budgetHotel), ("standard", standardHotel), ("luxury", luxuryHotel)]

/-- The lookup hotelTypes[roomType] with the standard tier as fallback. -/
def hotelFor (roomType : String) : HotelTier :=
  (hotelTypes.lookup roomType).getD standardHotel

/-- The multipliers object literal of getDestinationMultiplier. -/
def destinationMultipliers : List (String × ℚ) :=
  [ ("Tokyo", 7/5), ("Paris", 13/10), ("London", 6/5), ("Dubai", 11/10),
    ("New York", 6/5), ("Mumbai", 3/5), ("Delhi", 1/2), ("Bangkok", 7/10),
    ("Singapore", 11/10) ]

/-- getDestinationMultiplier: `multipliers[destination] || 1.0`. -/
def getDestinationMultiplier (destination : String) : ℚ :=
  (destinationMultipliers.lookup destination).getD 1

structure HotelQuote where
  pricePerNight : ℤ
  hotelName : String
  rating : ℚ
  amenities : List String
  availability : Bool
  cancellation : Bool
  breakfast : Bool
  wifi : Bool
  location : String
  deriving Repr, DecidableEq

/-- mockHotelAPI.  checkIn, checkOut and guests are accepted and unused,
exactly as in the source; rv and rav are the two Math.random() draws
(price variation; availability). -/
def mockHotelAPI (destination : String) (_checkIn _checkOut : String) (_guests : ℕ)
    (roomType : String) (rv rav : ℚ) : HotelQuote :=
  let hotel := hotelFor roomType
  let v := rv * (3/10) - 3/20
  let destinationMultiplier := getDestinationMultiplier destination
  { pricePerNight := jsRound ((hotel.basePrice : ℚ) * (1 + v) * destinationMultiplier)
    hotelName := hotel.name
    rating := hotel.rating
    amenities := hotel.amenities
    availability := rav > 3/20
    cancellation := roomType != "budget"
    breakfast := hotel.amenities.contains "Breakfast"
    wifi := true
    location := "City Center" }

/-! ## mockActivityAPI -/

def defaultActivities : List String :=
  ["City Tour", "Sightseeing", "Local Experience", "Photography Walk"]

/-- The activities object literal. -/
def activityTable : List (String × List String) :=
  [ ("cultural", ["Museum Tour", "Historical Walk", "Art Gallery Visit", "Cultural Show"]),
    ("adventure", ["Hiking Tour", "Water Sports", "Rock Climbing", "Zip Lining"]),
    ("food", ["Food Tour", "Cooking Class", "Wine Tasting", "Street Food Walk"]),
    ("nature", ["Nature Walk", "Wildlife Safari", "Botanical Garden", "Beach Day"]),
    ("default", defaultActivities) ]

structure ActivityQuote where
  averagePrice : ℤ
  recommendedActivities : List String
  totalActivities : ℕ
  bookingRequired : Bool
  groupDiscount : Bool
  cancellationPolicy : String
  deriving Repr, DecidableEq

/-- mockActivityAPI.  rp and rb are the two Math.random() draws
(price; bookingRequired). -/
def mockActivityAPI (_destination : String) (duration travelers : ℕ)
    (interests : List String) (rp rb : ℚ) : ActivityQuote :=
  let activityType := if interests.length > 0 then interests.headD "default" else "default"
  let availableActivities := (activityTable.lookup activityType).getD defaultActivities
  { averagePrice := jsRound (25 + rp * 75)
    recommendedActivities := availableActivities.take (min duration 4)
    totalActivities := min (duration * 2) 10
    bookingRequired := rb > 3/10
    groupDiscount := decide (travelers > 4)
    cancellationPolicy := "24 hours free cancellation" }

/-! ## getExchangeRates -/

def usdRates : List (String × ℚ) :=
  [("EUR", 85/100), ("GBP", 73/100), ("INR", 8312/100), ("JPY", 14950/100)]

def eurRates : List (String × ℚ) :=
  [("USD", 118/100), ("GBP", 86/100), ("INR", 9789/100), ("JPY", 17619/100)]

def gbpRates : List (String × ℚ) :=
  [("USD", 137/100), ("EUR", 116/100), ("INR", 11387/100), ("JPY", 20493/100)]

def inrRates : List (String × ℚ) :=
  [("USD", 12/1000), ("EUR", 10/1000), ("GBP", 88/10000), ("JPY", 180/100)]

/-- The mockRates object literal. -/
def mockRates : List (String × List (String × ℚ)) :=
  [("USD", usdRates), ("EUR", eurRates), ("GBP", gbpRates), ("INR", inrRates)]

/-- The fallback table returned by the catch branch. -/
def fallbackRates : List (String × ℚ) := [("USD", 1)]

/-- getExchangeRates: mockRates[baseCurrency] with the USD table as fallback.  The try
body contains no throwing operation, so the catch branch (fallbackRates) is
unreachable and the function is total. -/
def getExchangeRates (baseCurrency : String) : List (String × ℚ) :=
  (mockRates.lookup baseCurrency).getD usdRates

/-! ## generateRecommendations -/

def budgetRecs : List String :=
  ["🏠 Consider hostels or budget hotels for accommodation",
   "🚌 Use public transportation to save on travel costs",
   "🚶 Look for free walking tours and city attractions",
   "🍜 Try local street food for authentic and affordable meals"]

def luxuryRecs : List String :=
  ["✈️ Book flights 2-3 months in advance for better deals",
   "🏨 Consider package deals for flights + hotels",
   "🍾 Look for hotel packages that include breakfast and amenities"]

def longDurationRecs : List String :=
  ["📅 Book longer stays for potential accommodation discounts",
   "🎫 Consider weekly transport passes for better value",
   "🗓️ Plan rest days to avoid burnout and extra costs"]

def peakSeasonRecs : List String :=
  ["📈 This is peak season - book early for better prices",
   "📉 Consider shoulder season for 20-30% savings",
   "🎪 Expect crowds at popular attractions"]

def offPeakRecs : List String :=
  ["💰 Great choice! Off-peak season offers better value",
   "🌤️ Weather might be less predictable, pack accordingly"]

def groupRecs : List String :=
  ["👥 Look for group discounts on activities and tours",
   "🏠 Consider vacation rentals for larger groups"]

/-- generateRecommendations: the four independent rule groups, appended in
source order (budget tier, duration, season, group size). -/
def generateRecommendations (_destination : String) (budgetType : String) (month : ℤ)
    (duration travelers : ℕ) : List String :=
  (if budgetType == "budget" then budgetRecs
   else if budgetType == "luxury" then luxuryRecs else [])
  ++ (if duration > 7 then longDurationRecs else [])
  ++ (if month ∈ peakMonths then peakSeasonRecs else offPeakRecs)
  ++ (if travelers > 4 then groupRecs else [])

end TripPlanner

/-! ## Helper lemmas -/

namespace TripPlanner

theorem lookup_mem_pair {β : Type} (l : List (String × β)) (k : String) (v : β)
    (h : l.lookup k = some v) : (k, v) ∈ l := by
  induction l with
  | nil => simp [List.lookup] at h
  | cons p t ih =>
    obtain ⟨k2, v2⟩ := p
    by_cases hk : k == k2
    · rw [List.lookup, hk] at h
      simp at h
      subst h
      have : k = k2 := by simpa using hk
      subst this
      exact List.mem_cons_self _ _
    · rw [List.lookup, Bool.of_not_eq_true hk] at h
      exact List.mem_cons_of_mem _ (ih h)

theorem lookup_value_mem {β : Type} (l : List (String × β)) (k : String) (v : β)
    (h : l.lookup k = some v) : v ∈ l.map Prod.snd :=
  List.mem_map.mpr ⟨(k, v), lookup_mem_pair l k v h, rfl⟩

theorem lookup_eq_none_of_not_key {β : Type} (l : List (String × β)) (k : String)
    (h : k ∉ l.map Prod.fst) : l.lookup k = none := by
  induction l with
  | nil => rfl
  | cons p t ih =>
    obtain ⟨k2, v2⟩ := p
    simp only [List.map, List.mem_cons] at h
    push_neg at h
    have hk : (k == k2) = false := by
      simpa using h.1
    rw [List.lookup, hk]
    exact ih h.2

theorem jsRound_mono {x y : ℚ} (h : x ≤ y) : jsRound x ≤ jsRound y :=
  Int.floor_le_floor (by linarith)

theorem le_jsRound {z : ℤ} {x : ℚ} (h : (z : ℚ) ≤ x + 1/2) : z ≤ jsRound x :=
  Int.le_floor.mpr h

theorem pickIndex_lt {r : ℚ} (n : ℕ) (_h0 : 0 ≤ r) (h1 : r < 1) (hn : 0 < n) :
    pickIndex r n < n := by
  have hfl : ⌊r * (n:ℚ)⌋ < (n:ℤ) := by
    apply Int.floor_lt.mpr
    have hc : (0:ℚ) < n := by exact_mod_cast hn
    push_cast
    nlinarith
  unfold pickIndex
  omega

theorem getD_mem_of_lt {l : List String} {i : ℕ} (h : i < l.length) (d : String) :
    l.getD i d ∈ l := by
  rw [List.getD_eq_getElem?_getD, List.getElem?_eq_getElem h]
  exact List.getElem_mem h

theorem routes_values_ge :
    ∀ row ∈ routes.map Prod.snd, ∀ v ∈ row.map Prod.snd, 50 ≤ v := by decide

theorem flightBasePrice_ge (o d : String) : 50 ≤ flightBasePrice o d := by
  unfold flightBasePrice lookupRoute
  cases hrow : routes.lookup o with
  | none => simp
  | some row =>
    have hbind : (Option.some row).bind (fun row => row.lookup d) = row.lookup d := rfl
    rw [hbind]
    cases hval : row.lookup d with
    | none => simp
    | some v =>
      simp only [Option.getD_some]
      exact routes_values_ge row (lookup_value_mem _ _ _ hrow) v (lookup_value_mem _ _ _ hval)

theorem getSeasonalMultiplier_ge (month : ℤ) : 9/10 ≤ getSeasonalMultiplier month := by
  unfold getSeasonalMultiplier
  split <;> norm_num

theorem destinationMultiplier_values :
    ∀ v ∈ destinationMultipliers.map Prod.snd, 1/2 ≤ v := by
  intro v hv
  simp only [destinationMultipliers, List.map_cons, List.map_nil, List.mem_cons,
    List.not_mem_nil, or_false] at hv
  rcases hv with h | h | h | h | h | h | h | h | h <;> rw [h] <;> norm_num

theorem getDestinationMultiplier_ge (dest : String) :
    1/2 ≤ getDestinationMultiplier dest := by
  unfold getDestinationMultiplier
  cases h : destinationMultipliers.lookup dest with
  | none => norm_num
  | some v =>
    simp only [Option.getD_some]
    exact destinationMultiplier_values v (lookup_value_mem _ _ _ h)

theorem hotelFor_cases (roomType : String) :
    hotelFor roomType = budgetHotel ∨ hotelFor roomType = standardHotel ∨
      hotelFor roomType = luxuryHotel := by
  unfold hotelFor
  cases h : hotelTypes.lookup roomType with
  | none => simp
  | some hot =>
    have := lookup_value_mem _ _ _ h
    simp only [hotelTypes, List.map_cons, List.map_nil, List.mem_cons,
      List.mem_singleton, List.not_mem_nil, or_false] at this
    simp only [Option.getD_some]
    tauto

theorem activityList_length (t : String) :
    ((activityTable.lookup t).getD defaultActivities).length = 4 := by
  cases h : activityTable.lookup t with
  | none => rfl
  | some l =>
    simp only [Option.getD_some]
    have hm := lookup_value_mem _ _ _ h
    have : ∀ l ∈ activityTable.map Prod.snd, l.length = 4 := by decide
    exact this l hm

end TripPlanner

namespace TripPlanner

theorem flightStops_intl_short {α : Type} [LinearOrderedField α] (dur rs : α)
    (h : dur < 5) : flightStops false dur rs = if rs > 7/10 then 0 else 1 := by
  unfold flightStops
  rw [if_neg (by simp), if_pos h]

theorem flightStops_intl_medium {α : Type} [LinearOrderedField α] (dur rs : α)
    (h5 : 5 ≤ dur) (h10 : dur < 10) :
    flightStops false dur rs = if rs > 1/2 then 1 else 0 := by
  unfold flightStops
  rw [if_neg (by simp), if_neg (by linarith), if_pos h10]

theorem flightStops_intl_long {α : Type} [LinearOrderedField α] (dur rs : α)
    (h : 10 ≤ dur) : flightStops false dur rs = if rs > 3/10 then 1 else 2 := by
  unfold flightStops
  rw [if_neg (by simp), if_neg (by linarith), if_neg (by linarith)]

/-- Claim C4: for every international route whose resolved duration after
jitter is at least 10 hours, getFlightDetails returns a stop count of 1 or 2,
never 0, for every value of the stop draw. -/
theorem claim_C4 (o d : String) (rj rs : ℚ)
    (h : 10 ≤ resolvedDuration o d false rj) :
    (getFlightDetails o d false rj rs).2 = 1 ∨ (getFlightDetails o d false rj rs).2 = 2 := by
  show flightStops false (resolvedDuration o d false rj) rs = 1 ∨
    flightStops false (resolvedDuration o d false rj) rs = 2
  rw [flightStops_intl_long _ _ h]
  by_cases hrs : rs > 3/10
  · left
    rw [if_pos hrs]
  · right
    rw [if_neg hrs]

/-- Witness for C4: the mumbai to new york route with jitter draw 1/2 has
resolved duration 15 hours and its stop count is 1 or 2. -/
theorem claim_C4_witness :
    10 ≤ resolvedDuration "mumbai" "new york" false (1/2) ∧
    ((getFlightDetails "mumbai" "new york" false (1/2) 0).2 = 1 ∨
     (getFlightDetails "mumbai" "new york" false (1/2) 0).2 = 2) := by
  have hb : baseDuration "mumbai" "new york" false = 15 := rfl
  have h : resolvedDuration "mumbai" "new york" false (1/2) = 15 := by
    unfold resolvedDuration
    rw [hb]
    norm_num
  exact ⟨by rw [h]; norm_num, claim_C4 "mumbai" "new york" (1/2) 0 (by rw [h]; norm_num)⟩

/-- Claim C5: for every base currency string other than the known keys USD,
EUR, GBP and INR, getExchangeRates returns the USD rate table and not the
USD-identity fallback (which in the source is reachable only from the catch
branch; the try body is total). -/
theorem claim_C5 (base : String) (h1 : base ≠ "USD") (h2 : base ≠ "EUR")
    (h3 : base ≠ "GBP") (h4 : base ≠ "INR") :
    getExchangeRates base = usdRates ∧ getExchangeRates base ≠ fallbackRates := by
  have hl : mockRates.lookup base = none := by
    apply lookup_eq_none_of_not_key
    simp only [mockRates, List.map_cons, List.map_nil, List.mem_cons,
      List.not_mem_nil, or_false]
    push_neg
    exact ⟨h1, h2, h3, h4⟩
  have hres : getExchangeRates base = usdRates := by
    unfold getExchangeRates
    rw [hl]
    rfl
  refine ⟨hres, ?_⟩
  rw [hres]
  intro hcon
  have := congrArg List.length hcon
  simp [usdRates, fallbackRates] at this

/-- Witness for C5 at the concrete unknown base currency JPY. -/
theorem claim_C5_witness :
    getExchangeRates "JPY" = usdRates ∧ getExchangeRates "JPY" ≠ fallbackRates :=
  claim_C5 "JPY" (by decide) (by decide) (by decide) (by decide)

/-- Claim C8: generateRecommendations called with budgetType luxury,
month 6, duration 10 and travelers 5 returns exactly the luxury-tier
strings, then the long-duration strings, then the peak-season strings, then
the group-size strings, each group non-empty, so at least one string of each
category appears and all category blocks are in the stated relative order. -/
theorem claim_C8 (destination : String) :
    generateRecommendations destination "luxury" 6 10 5
      = luxuryRecs ++ longDurationRecs ++ peakSeasonRecs ++ groupRecs ∧
    luxuryRecs ≠ [] ∧ longDurationRecs ≠ [] ∧
    peakSeasonRecs ≠ [] ∧ groupRecs ≠ [] := by
  refine ⟨rfl, ?_, ?_, ?_, ?_⟩ <;> simp [luxuryRecs, longDurationRecs, peakSeasonRecs, groupRecs]

/-- Witness for C8 at the concrete destination Paris. -/
theorem claim_C8_witness :
    generateRecommendations "Paris" "luxury" 6 10 5
      = luxuryRecs ++ longDurationRecs ++ peakSeasonRecs ++ groupRecs ∧
    luxuryRecs ≠ [] ∧ longDurationRecs ≠ [] ∧
    peakSeasonRecs ≠ [] ∧ groupRecs ≠ [] :=
  claim_C8 "Paris"

/-- Claim C10: for every duration and travelers count, the activity quote has
totalActivities equal to min(2*duration, 10), hence never above 10, exactly
min(duration, 4) recommended activities, and groupDiscount true exactly when
travelers > 4. -/
theorem claim_C10 (destination : String) (duration travelers : ℕ)
    (interests : List String) (rp rb : ℚ) :
    (mockActivityAPI destination duration travelers interests rp rb).totalActivities
        = min (2 * duration) 10 ∧
    (mockActivityAPI destination duration travelers interests rp rb).totalActivities ≤ 10 ∧
    (mockActivityAPI destination duration travelers interests rp rb).recommendedActivities.length
        = min duration 4 ∧
    ((mockActivityAPI destination duration travelers interests rp rb).groupDiscount = true
        ↔ 4 < travelers) := by
  refine ⟨?_, ?_, ?_, ?_⟩
  · show min (duration * 2) 10 = min (2 * duration) 10
    rw [Nat.mul_comm]
  · show min (duration * 2) 10 ≤ 10
    exact Nat.min_le_right _ _
  · show (((activityTable.lookup
        (if interests.length > 0 then interests.headD "default" else "default")).getD
          defaultActivities).take (min duration 4)).length = min duration 4
    rw [List.length_take, activityList_length]
    omega
  · show decide (travelers > 4) = true ↔ 4 < travelers
    exact decide_eq_true_iff

/-- Witness for C10 at duration 3, travelers 5, empty interests. -/
theorem claim_C10_witness :
    (mockActivityAPI "goa" 3 5 [] 0 0).totalActivities = min (2 * 3) 10 ∧
    (mockActivityAPI "goa" 3 5 [] 0 0).totalActivities ≤ 10 ∧
    (mockActivityAPI "goa" 3 5 [] 0 0).recommendedActivities.length = min 3 4 ∧
    ((mockActivityAPI "goa" 3 5 [] 0 0).groupDiscount = true ↔ 4 < 5) :=
  claim_C10 "goa" 3 5 [] 0 0

end TripPlanner

namespace TripPlanner

/-- Claim C2: the flight price equals round(base*(1+v)*seasonalMultiplier)
where v = rv*0.5-0.25 lies in the symmetric interval [-1/4, 1/4] for every
draw rv in [0,1), and the hotel price per night equals
round(base*(1+v)*destinationMultiplier) where v = rv*0.3-0.15 lies in
[-3/20, 3/20]; no other term enters either price. -/
theorem claim_C2 (origin destination : String) (month : ℤ)
    (rv ra rav rbc rr rj rs : ℚ) (hdest ci co : String) (g : ℕ)
    (roomType : String) (hv hav : ℚ)
    (h0 : 0 ≤ rv) (h1 : rv < 1) (k0 : 0 ≤ hv) (k1 : hv < 1) :
    (mockFlightAPI origin destination month rv ra rav rbc rr rj rs).price
      = jsRound ((flightBasePrice (jsToLower (jsTrim origin))
            (jsToLower (jsTrim destination)) : ℚ)
          * (1 + (rv * (1/2) - 1/4)) * getSeasonalMultiplier month) ∧
    -(1/4) ≤ rv * (1/2) - 1/4 ∧ rv * (1/2) - 1/4 ≤ 1/4 ∧
    (mockHotelAPI hdest ci co g roomType hv hav).pricePerNight
      = jsRound (((hotelFor roomType).basePrice : ℚ)
          * (1 + (hv * (3/10) - 3/20)) * getDestinationMultiplier hdest) ∧
    -(3/20) ≤ hv * (3/10) - 3/20 ∧ hv * (3/10) - 3/20 ≤ 3/20 :=
  ⟨rfl, by linarith, by linarith, rfl, by linarith, by linarith⟩

/-- Witness for C2 at concrete inputs (Mumbai to Delhi in month 6 with
draw 1/2; a standard Tokyo hotel with draw 1/2). -/
theorem claim_C2_witness :
    (mockFlightAPI "Mumbai" "Delhi" 6 (1/2) 0 0 0 0 0 0).price
      = jsRound ((flightBasePrice (jsToLower (jsTrim "Mumbai"))
            (jsToLower (jsTrim "Delhi")) : ℚ)
          * (1 + ((1/2 : ℚ) * (1/2) - 1/4)) * getSeasonalMultiplier 6) ∧
    -(1/4) ≤ (1/2 : ℚ) * (1/2) - 1/4 ∧ (1/2 : ℚ) * (1/2) - 1/4 ≤ 1/4 ∧
    (mockHotelAPI "Tokyo" "" "" 2 "standard" (1/2) 0).pricePerNight
      = jsRound (((hotelFor "standard").basePrice : ℚ)
          * (1 + ((1/2 : ℚ) * (3/10) - 3/20)) * getDestinationMultiplier "Tokyo") ∧
    -(3/20) ≤ (1/2 : ℚ) * (3/10) - 3/20 ∧ (1/2 : ℚ) * (3/10) - 3/20 ≤ 3/20 :=
  claim_C2 "Mumbai" "Delhi" 6 (1/2) 0 0 0 0 0 0 "Tokyo" "" "" 2 "standard" (1/2) 0
    (by norm_num) (by norm_num) (by norm_num) (by norm_num)

/-- Claim C9: mockHotelAPI passes the destination to
getDestinationMultiplier without any normalization, and the table keys are
capitalized, so every destination string that is not character-for-character
one of the keys gets multiplier exactly 1.0 and the hotel price reduces to
round(base*(1+v)). -/
theorem claim_C9 (dest : String)
    (h : dest ∉ destinationMultipliers.map Prod.fst) :
    getDestinationMultiplier dest = 1 ∧
    ∀ ci co : String, ∀ g : ℕ, ∀ roomType : String, ∀ rv rav : ℚ,
      (mockHotelAPI dest ci co g roomType rv rav).pricePerNight
        = jsRound (((hotelFor roomType).basePrice : ℚ) * (1 + (rv * (3/10) - 3/20))) := by
  have hm : getDestinationMultiplier dest = 1 := by
    unfold getDestinationMultiplier
    rw [lookup_eq_none_of_not_key _ _ h]
    rfl
  refine ⟨hm, fun ci co g roomType rv rav => ?_⟩
  show jsRound (((hotelFor roomType).basePrice : ℚ) * (1 + (rv * (3/10) - 3/20))
      * getDestinationMultiplier dest) = _
  rw [hm, mul_one]

/-- Witness for C9 at the lowercase destination delhi (which is not a key,
while Delhi is). -/
theorem claim_C9_witness :
    getDestinationMultiplier "delhi" = 1 ∧
    (mockHotelAPI "delhi" "" "" 2 "standard" 0 0).pricePerNight
      = jsRound (((hotelFor "standard").basePrice : ℚ) * (1 + ((0:ℚ) * (3/10) - 3/20))) :=
  ⟨(claim_C9 "delhi" (by decide)).1,
   (claim_C9 "delhi" (by decide)).2 "" "" 2 "standard" 0 0⟩

end TripPlanner

namespace TripPlanner

theorem mul3_le {b w s bl wl sl : ℚ} (hb : bl ≤ b) (hw : wl ≤ w) (hs : sl ≤ s)
    (hbl : 0 ≤ bl) (hwl : 0 ≤ wl) (hsl : 0 ≤ sl) : bl * wl * sl ≤ b * w * s := by
  have h1 : bl * wl ≤ b * w := mul_le_mul hb hw hwl (le_trans hbl hb)
  exact mul_le_mul h1 hs hsl (mul_nonneg (le_trans hbl hb) (le_trans hwl hw))

theorem jsRound_pos {x : ℚ} (h : 1/2 ≤ x) : 0 < jsRound x := by
  have h1 : (1:ℤ) ≤ jsRound x := le_jsRound (by push_cast; linarith)
  omega

theorem mockFlightAPI_airline_ne (origin destination : String) (month : ℤ)
    (rv ra rav rbc rr rj rs : ℚ) (h0 : 0 ≤ ra) (h1 : ra < 1) :
    (mockFlightAPI origin destination month rv ra rav rbc rr rj rs).airline ≠ "" := by
  have hgen : ∀ l : List String, 0 < l.length → (∀ x ∈ l, x ≠ "") →
      l.getD (pickIndex ra l.length) "" ≠ "" := fun l hl hne hcon =>
    hne _ (getD_mem_of_lt (pickIndex_lt _ h0 h1 hl) "") hcon
  show (if isDomesticRoute (jsToLower (jsTrim origin)) (jsToLower (jsTrim destination))
      then domesticAirlines else internationalAirlines).getD
      (pickIndex ra (if isDomesticRoute (jsToLower (jsTrim origin))
        (jsToLower (jsTrim destination))
      then domesticAirlines else internationalAirlines).length) "" ≠ ""
  split
  · exact hgen _ (by decide) (by decide)
  · exact hgen _ (by decide) (by decide)

theorem hotel_basePrice_ge (roomType : String) : 60 ≤ (hotelFor roomType).basePrice := by
  rcases hotelFor_cases roomType with h | h | h <;> rw [h] <;> decide

theorem hotel_name_ne (roomType : String) : (hotelFor roomType).name ≠ "" := by
  rcases hotelFor_cases roomType with h | h | h <;> rw [h] <;> decide

theorem hotel_amenities_ne (roomType : String) : (hotelFor roomType).amenities ≠ [] := by
  rcases hotelFor_cases roomType with h | h | h <;> rw [h] <;> decide

/-- Counterexample to claim C1 as stated: with duration 0 the activity quote
has an empty recommendedActivities list, so not every produced quote has a
non-empty descriptive label set. -/
theorem claim_C1_counterexample :
    (mockActivityAPI "paris" 0 2 [] 0 0).recommendedActivities = [] := rfl

/-- Claim C1 (amended): for all inputs and all random draws in [0,1), flight
and hotel quotes have a strictly positive price and non-empty labels
(airline; hotel name and amenities); the activity quote always has a strictly
positive average price, and its recommendedActivities list is non-empty
whenever the trip duration is at least 1 day (with duration 0 it is empty). -/
theorem claim_C1_amended
    (origin destination : String) (month : ℤ) (rv ra rav rbc rr rj rs : ℚ)
    (hdest ci co : String) (g : ℕ) (roomType : String) (hv hav : ℚ)
    (adest : String) (dur trav : ℕ) (ints : List String) (rp rb : ℚ)
    (hrv0 : 0 ≤ rv) (hra0 : 0 ≤ ra) (hra1 : ra < 1)
    (hhv0 : 0 ≤ hv) (hrp0 : 0 ≤ rp) (hdur : 1 ≤ dur) :
    (0 < (mockFlightAPI origin destination month rv ra rav rbc rr rj rs).price ∧
     (mockFlightAPI origin destination month rv ra rav rbc rr rj rs).airline ≠ "") ∧
    (0 < (mockHotelAPI hdest ci co g roomType hv hav).pricePerNight ∧
     (mockHotelAPI hdest ci co g roomType hv hav).hotelName ≠ "" ∧
     (mockHotelAPI hdest ci co g roomType hv hav).amenities ≠ []) ∧
    (0 < (mockActivityAPI adest dur trav ints rp rb).averagePrice ∧
     (mockActivityAPI adest dur trav ints rp rb).recommendedActivities ≠ []) := by
  refine ⟨⟨?_, mockFlightAPI_airline_ne origin destination month rv ra rav rbc rr rj rs
      hra0 hra1⟩, ⟨?_, hotel_name_ne roomType, hotel_amenities_ne roomType⟩, ?_, ?_⟩
  · apply jsRound_pos
    have hb : (50:ℚ) ≤ ((flightBasePrice (jsToLower (jsTrim origin))
        (jsToLower (jsTrim destination)) : ℕ) : ℚ) := by
      exact_mod_cast flightBasePrice_ge _ _
    have hw : (3/4:ℚ) ≤ 1 + (rv * (1/2) - 1/4) := by linarith
    have hs := getSeasonalMultiplier_ge month
    linarith [mul3_le hb hw hs (by norm_num) (by norm_num) (by norm_num)]
  · apply jsRound_pos
    have hb : (60:ℚ) ≤ ((hotelFor roomType).basePrice : ℚ) := by
      exact_mod_cast hotel_basePrice_ge roomType
    have hw : (17/20:ℚ) ≤ 1 + (hv * (3/10) - 3/20) := by linarith
    have hm := getDestinationMultiplier_ge hdest
    linarith [mul3_le hb hw hm (by norm_num) (by norm_num) (by norm_num)]
  · apply jsRound_pos
    have : (0:ℚ) ≤ rp * 75 := by positivity
    linarith
  · show (((activityTable.lookup
        (if ints.length > 0 then ints.headD "default" else "default")).getD
          defaultActivities).take (min dur 4)) ≠ []
    have hlen : ((((activityTable.lookup
        (if ints.length > 0 then ints.headD "default" else "default")).getD
          defaultActivities).take (min dur 4))).length = min dur 4 := by
      rw [List.length_take, activityList_length]
      omega
    intro hcon
    rw [hcon] at hlen
    simp only [List.length_nil] at hlen
    omega

/-- Witness for the amended C1 at concrete inputs for all three producers. -/
theorem claim_C1_amended_witness :
    (0 < (mockFlightAPI "Mumbai" "Delhi" 6 0 0 0 0 0 0 0).price ∧
     (mockFlightAPI "Mumbai" "Delhi" 6 0 0 0 0 0 0 0).airline ≠ "") ∧
    (0 < (mockHotelAPI "Tokyo" "" "" 2 "standard" 0 0).pricePerNight ∧
     (mockHotelAPI "Tokyo" "" "" 2 "standard" 0 0).hotelName ≠ "" ∧
     (mockHotelAPI "Tokyo" "" "" 2 "standard" 0 0).amenities ≠ []) ∧
    (0 < (mockActivityAPI "goa" 3 5 [] 0 0).averagePrice ∧
     (mockActivityAPI "goa" 3 5 [] 0 0).recommendedActivities ≠ []) :=
  claim_C1_amended "Mumbai" "Delhi" 6 0 0 0 0 0 0 0 "Tokyo" "" "" 2 "standard" 0 0
    "goa" 3 5 [] 0 0 (by norm_num) (by norm_num) (by norm_num) (by norm_num)
    (by norm_num) (by norm_num)

end TripPlanner

namespace TripPlanner

/-- Counterexample to claim C6 as stated: the hotel price includes the
destination multiplier, so for destination Tokyo (multiplier 1.4) even the
lowest-variation draw exceeds the upper bound round(1.15 * basePrice) of the
claimed band around the bare tier base rate. -/
theorem claim_C6_counterexample :
    ¬ ((mockHotelAPI "Tokyo" "" "" 2 "standard" 0 0).pricePerNight
        ≤ jsRound ((115/100) * ((hotelFor "standard").basePrice : ℚ))) := by
  have h1 : (mockHotelAPI "Tokyo" "" "" 2 "standard" 0 0).pricePerNight = 143 := by
    show jsRound (((hotelFor "standard").basePrice : ℚ)
        * (1 + ((0:ℚ) * (3/10) - 3/20)) * getDestinationMultiplier "Tokyo") = 143
    have hb : (hotelFor "standard").basePrice = 120 := rfl
    have hm : getDestinationMultiplier "Tokyo" = 7/5 := rfl
    rw [hb, hm]
    unfold jsRound
    push_cast
    norm_num
  have h2 : jsRound ((115/100) * ((hotelFor "standard").basePrice : ℚ)) = 138 := by
    have hb : (hotelFor "standard").basePrice = 120 := rfl
    rw [hb]
    unfold jsRound
    push_cast
    norm_num
  rw [h1, h2]
  omega

/-- Claim C6 (amended): for every destination, room type and draw in [0,1),
the hotel price per night lies within the rounded ±15 percent band around
basePrice * destinationMultiplier (the tier base rate scaled by the
destination multiplier), not around the bare tier base rate. -/
theorem claim_C6_amended (dest ci co : String) (g : ℕ) (roomType : String)
    (rv rav : ℚ) (h0 : 0 ≤ rv) (h1 : rv < 1) :
    jsRound ((85/100) * ((hotelFor roomType).basePrice : ℚ)
        * getDestinationMultiplier dest)
      ≤ (mockHotelAPI dest ci co g roomType rv rav).pricePerNight ∧
    (mockHotelAPI dest ci co g roomType rv rav).pricePerNight
      ≤ jsRound ((115/100) * ((hotelFor roomType).basePrice : ℚ)
          * getDestinationMultiplier dest) := by
  have hprice : (mockHotelAPI dest ci co g roomType rv rav).pricePerNight
      = jsRound (((hotelFor roomType).basePrice : ℚ) * (1 + (rv * (3/10) - 3/20))
          * getDestinationMultiplier dest) := rfl
  have hb : (0:ℚ) ≤ ((hotelFor roomType).basePrice : ℚ) := by positivity
  have hm : (0:ℚ) ≤ getDestinationMultiplier dest :=
    le_trans (by norm_num) (getDestinationMultiplier_ge dest)
  have hbm : (0:ℚ) ≤ ((hotelFor roomType).basePrice : ℚ)
      * getDestinationMultiplier dest := mul_nonneg hb hm
  constructor
  · rw [hprice]
    apply jsRound_mono
    nlinarith [mul_nonneg hbm h0]
  · rw [hprice]
    apply jsRound_mono
    nlinarith [mul_nonneg hbm (by linarith : (0:ℚ) ≤ 1 - rv)]

/-- Witness for the amended C6 at destination Tokyo, standard tier, draw 0. -/
theorem claim_C6_amended_witness :
    jsRound ((85/100) * ((hotelFor "standard").basePrice : ℚ)
        * getDestinationMultiplier "Tokyo")
      ≤ (mockHotelAPI "Tokyo" "" "" 2 "standard" 0 0).pricePerNight ∧
    (mockHotelAPI "Tokyo" "" "" 2 "standard" 0 0).pricePerNight
      ≤ jsRound ((115/100) * ((hotelFor "standard").basePrice : ℚ)
          * getDestinationMultiplier "Tokyo") :=
  claim_C6_amended "Tokyo" "" "" 2 "standard" 0 0 (by norm_num) (by norm_num)

/-- Counterexample to claim C7 as stated: the flight base-price lookup has no
reverse-direction fallback and the table is missing the paris to mumbai
entry, so the resolved base price is not direction-symmetric. -/
theorem claim_C7_counterexample :
    flightBasePrice "mumbai" "paris" = 550 ∧ flightBasePrice "paris" "mumbai" = 500 ∧
    flightBasePrice "mumbai" "paris" ≠ flightBasePrice "paris" "mumbai" :=
  ⟨rfl, rfl, by decide⟩

theorem routes_sym_defined :
    ∀ e1 ∈ routes, ∀ p1 ∈ e1.2, ∀ e2 ∈ routes, ∀ p2 ∈ e2.2,
      p1.1 = e2.1 → p2.1 = e1.1 → p1.2 = p2.2 := by decide

/-- Claim C7 (amended): the price lookup uses only the forward key with
default 500 and no reverse fallback, so direction symmetry of the resolved
base price fails where a reverse entry is missing; however, the table is
populated symmetrically wherever both directions are present: whenever the
forward and the reverse lookup both succeed, they return equal prices. -/
theorem claim_C7_amended (o d : String) (p q : ℕ)
    (hf : lookupRoute o d = some p) (hr : lookupRoute d o = some q) : p = q := by
  unfold lookupRoute at hf hr
  obtain ⟨row1, hrow1, hp⟩ := Option.bind_eq_some.mp hf
  obtain ⟨row2, hrow2, hq⟩ := Option.bind_eq_some.mp hr
  exact routes_sym_defined (o, row1) (lookup_mem_pair _ _ _ hrow1) (d, p)
    (lookup_mem_pair _ _ _ hp) (d, row2) (lookup_mem_pair _ _ _ hrow2) (o, q)
    (lookup_mem_pair _ _ _ hq) rfl rfl

/-- Witness for the amended C7 at the pair mumbai, delhi, present in both
directions with price 80. -/
theorem claim_C7_amended_witness :
    lookupRoute "mumbai" "delhi" = some 80 ∧ lookupRoute "delhi" "mumbai" = some 80 ∧
    (80:ℕ) = 80 :=
  ⟨rfl, rfl, claim_C7_amended "mumbai" "delhi" 80 80 rfl rfl⟩

end TripPlanner

namespace TripPlanner

theorem stops_event_short (d : ℝ) (h : d < 5) :
    {r : ℝ | r ∈ Set.Ico (0:ℝ) 1 ∧ 1 ≤ flightStops false d r} = Set.Icc 0 (7/10) := by
  ext r
  simp only [Set.mem_setOf_eq, Set.mem_Ico, Set.mem_Icc]
  rw [flightStops_intl_short d r h]
  by_cases hc : r > 7/10
  · simp only [if_pos hc]
    constructor
    · rintro ⟨_, hs⟩
      exact absurd hs (by norm_num)
    · rintro ⟨_, hr⟩
      linarith
  · simp only [if_neg hc]
    push_neg at hc
    constructor
    · rintro ⟨⟨hr0, _⟩, _⟩
      exact ⟨hr0, hc⟩
    · rintro ⟨hr0, _⟩
      exact ⟨⟨hr0, by linarith⟩, le_refl 1⟩

theorem stops_event_medium (d : ℝ) (h5 : 5 ≤ d) (h10 : d < 10) :
    {r : ℝ | r ∈ Set.Ico (0:ℝ) 1 ∧ 1 ≤ flightStops false d r} = Set.Ioo (1/2) 1 := by
  ext r
  simp only [Set.mem_setOf_eq, Set.mem_Ico, Set.mem_Ioo]
  rw [flightStops_intl_medium d r h5 h10]
  by_cases hc : r > 1/2
  · simp only [if_pos hc]
    constructor
    · rintro ⟨⟨_, hr1⟩, _⟩
      exact ⟨hc, hr1⟩
    · rintro ⟨_, hr1⟩
      exact ⟨⟨by linarith, hr1⟩, le_refl 1⟩
  · simp only [if_neg hc]
    push_neg at hc
    constructor
    · rintro ⟨_, hs⟩
      exact absurd hs (by norm_num)
    · rintro ⟨h12, _⟩
      linarith

theorem stops_event_long (d : ℝ) (h : 10 ≤ d) :
    {r : ℝ | r ∈ Set.Ico (0:ℝ) 1 ∧ 1 ≤ flightStops false d r} = Set.Ico 0 1 := by
  ext r
  simp only [Set.mem_setOf_eq, Set.mem_Ico]
  rw [flightStops_intl_long d r h]
  constructor
  · rintro ⟨hr, _⟩
    exact hr
  · intro hr
    refine ⟨hr, ?_⟩
    split
    · norm_num
    · norm_num

/-- Counterexample to claim C3 as stated: the probability of at least one
stop is 1/2 for an international flight of resolved duration 6 hours but
7/10 for one of duration 4 hours, so the stop probability strictly
decreases when the duration crosses the 5h threshold. -/
theorem claim_C3_counterexample :
    MeasureTheory.volume {r : ℝ | r ∈ Set.Ico (0:ℝ) 1 ∧ 1 ≤ flightStops false (6:ℝ) r}
      < MeasureTheory.volume {r : ℝ | r ∈ Set.Ico (0:ℝ) 1 ∧ 1 ≤ flightStops false (4:ℝ) r} := by
  rw [stops_event_medium 6 (by norm_num) (by norm_num), stops_event_short 4 (by norm_num)]
  rw [Real.volume_Ioo, Real.volume_Icc]
  rw [ENNReal.ofReal_lt_ofReal_iff (by norm_num)]
  norm_num

/-- Claim C3 (amended): for international flights the probability of at
least one stop is 7/10 below 5 hours, 1/2 between 5 and 10 hours, and 1 at
or above 10 hours; it is monotone at the 10h threshold (both lower buckets
are below the long-haul bucket) but strictly decreases at the 5h
threshold. -/
theorem claim_C3_amended (d1 d2 d3 : ℝ) (h1 : d1 < 5) (h2a : 5 ≤ d2)
    (h2b : d2 < 10) (h3 : 10 ≤ d3) :
    MeasureTheory.volume {r : ℝ | r ∈ Set.Ico (0:ℝ) 1 ∧ 1 ≤ flightStops false d1 r}
        = ENNReal.ofReal (7/10) ∧
    MeasureTheory.volume {r : ℝ | r ∈ Set.Ico (0:ℝ) 1 ∧ 1 ≤ flightStops false d2 r}
        = ENNReal.ofReal (1/2) ∧
    MeasureTheory.volume {r : ℝ | r ∈ Set.Ico (0:ℝ) 1 ∧ 1 ≤ flightStops false d3 r}
        = ENNReal.ofReal 1 ∧
    MeasureTheory.volume {r : ℝ | r ∈ Set.Ico (0:ℝ) 1 ∧ 1 ≤ flightStops false d2 r}
        < MeasureTheory.volume {r : ℝ | r ∈ Set.Ico (0:ℝ) 1 ∧ 1 ≤ flightStops false d1 r} ∧
    MeasureTheory.volume {r : ℝ | r ∈ Set.Ico (0:ℝ) 1 ∧ 1 ≤ flightStops false d1 r}
        ≤ MeasureTheory.volume {r : ℝ | r ∈ Set.Ico (0:ℝ) 1 ∧ 1 ≤ flightStops false d3 r} ∧
    MeasureTheory.volume {r : ℝ | r ∈ Set.Ico (0:ℝ) 1 ∧ 1 ≤ flightStops false d2 r}
        ≤ MeasureTheory.volume {r : ℝ | r ∈ Set.Ico (0:ℝ) 1 ∧ 1 ≤ flightStops false d3 r} := by
  rw [stops_event_short d1 h1, stops_event_medium d2 h2a h2b, stops_event_long d3 h3]
  rw [Real.volume_Icc, Real.volume_Ioo, Real.volume_Ico]
  refine ⟨by norm_num, by norm_num, by norm_num, ?_, ?_, ?_⟩
  · rw [ENNReal.ofReal_lt_ofReal_iff (by norm_num)]
    norm_num
  · exact ENNReal.ofReal_le_ofReal (by norm_num)
  · exact ENNReal.ofReal_le_ofReal (by norm_num)

/-- Witness for the amended C3 at durations 4, 6 and 12 hours. -/
theorem claim_C3_amended_witness :
    MeasureTheory.volume {r : ℝ | r ∈ Set.Ico (0:ℝ) 1 ∧ 1 ≤ flightStops false (4:ℝ) r}
        = ENNReal.ofReal (7/10) ∧
    MeasureTheory.volume {r : ℝ | r ∈ Set.Ico (0:ℝ) 1 ∧ 1 ≤ flightStops false (6:ℝ) r}
        = ENNReal.ofReal (1/2) ∧
    MeasureTheory.volume {r : ℝ | r ∈ Set.Ico (0:ℝ) 1 ∧ 1 ≤ flightStops false (12:ℝ) r}
        = ENNReal.ofReal 1 ∧
    MeasureTheory.volume {r : ℝ | r ∈ Set.Ico (0:ℝ) 1 ∧ 1 ≤ flightStops false (6:ℝ) r}
        < MeasureTheory.volume {r : ℝ | r ∈ Set.Ico (0:ℝ) 1 ∧ 1 ≤ flightStops false (4:ℝ) r} ∧
    MeasureTheory.volume {r : ℝ | r ∈ Set.Ico (0:ℝ) 1 ∧ 1 ≤ flightStops false (4:ℝ) r}
        ≤ MeasureTheory.volume {r : ℝ | r ∈ Set.Ico (0:ℝ) 1 ∧ 1 ≤ flightStops false (12:ℝ) r} ∧
    MeasureTheory.volume {r : ℝ | r ∈ Set.Ico (0:ℝ) 1 ∧ 1 ≤ flightStops false (6:ℝ) r}
        ≤ MeasureTheory.volume {r : ℝ | r ∈ Set.Ico (0:ℝ) 1 ∧ 1 ≤ flightStops false (12:ℝ) r} :=
  claim_C3_amended 4 6 12 (by norm_num) (by norm_num) (by norm_num) (by norm_num)

end TripPlanner
